import Mathlib

/-!
# Verification of the claude-code-langfuse session/trace correlation core

Shallow embedding of the repository's core components:

* `ClaudeCodeLogger` (src/claude_logger.py) — the Session Recorder.  Its
  methods (`start_session`, `log_interaction`, `_log_tool_usage`,
  `end_session`) are embedded as pure functions from an explicit logger
  state and a description of the remote sink's behaviour for the call
  (whether the remote block raises, and which trace id the sink reports)
  to the new state, the Python return value, and the list of remote
  events emitted.  Span payloads (the `input=`/`output=`/`metadata=`
  dictionaries) are abstracted to the event kind plus the fields the
  spec's claims are about: the `(user_id, session_id)` association that
  `update_current_trace` re-sends, the span names, and score values.
* `GlobalClaudeObserver` (src/global_observer.py) — the Process Fleet
  Monitor.  One iteration of `monitor_loop`'s body and the `status`
  method are embedded over an association list keyed by pid (the Python
  dict `discovered_processes`).
* `_detect_terminal` (src/claude_session_manager.py) — terminal probing,
  embedded over a record of probe outcomes (`None` models a probe that
  raises or an unset environment variable; both make the Python loop
  `continue`).

Numbers: Python's float scores are modelled with `ℚ` (the score
arithmetic in the code only involves halves and tenths), wall-clock
durations with a `ℚ` parameter.
-/

namespace ClaudeLangfuse

/-- A remote event sent to the LangFuse sink, abstracted to the fields the
specification's invariants talk about. -/
inductive RemoteEvent where
  | spanOpen (name : String)
  | traceUpdate (userId sessionId : String)
  | spanData (spanName : String)
  | score (name : String) (traceId : String) (value : ℚ)
  | flush
  deriving DecidableEq, Repr

/-- The mutable fields of `ClaudeCodeLogger` that the embedded methods
read and write (`user_id`, `session_id`, `interaction_count`,
`current_trace_id`; `start_time` is modelled by passing the elapsed
duration to `end_session` directly). -/
structure LoggerState where
  user_id : String
  session_id : String
  interaction_count : ℕ
  current_trace_id : Option String
  deriving DecidableEq, Repr

/-- `ClaudeCodeLogger.__init__`: counter starts at 0, no trace id yet. -/
def initLogger (user_id session_id : String) : LoggerState :=
  { user_id := user_id, session_id := session_id,
    interaction_count := 0, current_trace_id := none }

/-- One entry of a `tools_used` list. -/
structure ToolRecord where
  name : String
  success : Bool := true
  duration_ms : ℕ := 0
  deriving DecidableEq, Repr

/-- Behaviour of the remote sink during one method call: `ok = false`
means some call inside the method's `try` block raises (the exception
message is `errMsg`); `traceId` is what `get_current_trace_id` returns
when it is reached. -/
structure SinkOutcome where
  ok : Bool
  traceId : Option String
  errMsg : String
  deriving DecidableEq, Repr

/-- `ClaudeCodeLogger._calculate_quality_score`: base 0.5, +0.2 for a
prompt longer than 50 chars, +0.2 for a response longer than 100 chars,
`min(0.3, 0.1 * len(tools))` when `tools` is truthy (present and
non-empty), clamped to at most 1.0. -/
def calculate_quality_score (prompt response : String)
    (tools : Option (List ToolRecord)) : ℚ :=
  let s0 : ℚ := 1/2
  let s1 : ℚ := if prompt.length > 50 then s0 + 1/5 else s0
  let s2 : ℚ := if response.length > 100 then s1 + 1/5 else s1
  let s3 : ℚ :=
    match tools with
    | some ts => if ts.isEmpty then s2 else s2 + min (3/10) ((ts.length : ℚ) * (1/10))
    | none => s2
  min 1 s3

/-- The inline productivity score in `ClaudeCodeLogger.end_session`:
`min(1.0, interaction_count / 10.0)`. -/
def session_productivity_score (n : ℕ) : ℚ := min 1 ((n : ℚ) / 10)

/-- `ClaudeCodeLogger.start_session`.  Returns (new state, returned
session id, emitted remote events).  The whole body is inside one `try`:
when the sink raises (`sink.ok = false`), the `except` branch prints and
returns `self.session_id`, leaving the state untouched; otherwise the
span is opened, the trace association `(user_id, session_id)` is
re-asserted via `update_current_trace`, span data is written,
`current_trace_id` is recorded, and a `session_active = 1.0` score is
created when a trace id was obtained.  `metadata` is the caller-supplied
dictionary (its contents only feed span payloads, which are abstracted). -/
def start_session (st : LoggerState) (metadata : List (String × String))
    (sink : SinkOutcome) : LoggerState × String × List RemoteEvent :=
  if sink.ok then
    let st' := { st with current_trace_id := sink.traceId }
    let scoreEvents :=
      match sink.traceId with
      | some t => [RemoteEvent.score "session_active" t 1]
      | none => []
    (st', st.session_id,
      [RemoteEvent.spanOpen "claude_code_session",
       RemoteEvent.traceUpdate st.user_id st.session_id,
       RemoteEvent.spanData "claude_code_session"] ++ scoreEvents)
  else
    (st, st.session_id, [])

/-- `ClaudeCodeLogger._log_tool_usage`: opens a span named after the
tool, re-asserts the `(user_id, session_id)` association, writes tool
data; any exception is swallowed (`ok = false` yields no events and the
caller proceeds). -/
def log_tool_usage (st : LoggerState) (tool : ToolRecord) (ok : Bool) :
    List RemoteEvent :=
  if ok then
    [RemoteEvent.spanOpen ("tool_" ++ tool.name),
     RemoteEvent.traceUpdate st.user_id st.session_id,
     RemoteEvent.spanData ("tool_" ++ tool.name)]
  else []

/-- The dictionary returned by `ClaudeCodeLogger.log_interaction`:
`{"interaction_id", "trace_id", "interaction_count"}` on success,
`{"interaction_id", "error"}` when the remote block raised. -/
inductive InteractionResult where
  | ok (interaction_id : String) (trace_id : Option String)
      (interaction_count : ℕ)
  | err (interaction_id : String) (error : String)
  deriving DecidableEq, Repr

/-- `ClaudeCodeLogger.log_interaction`.  `interaction_count` is
incremented and `interaction_id` computed BEFORE the `try` block, so
both happen regardless of remote failure.  On success a span is opened,
the trace association is re-asserted, span data written, each tool
logged through `_log_tool_usage` (with per-tool failures swallowed,
`toolOk`), a quality score created when a trace id exists, and the sink
flushed.  On failure the `except` branch returns the error dictionary. -/
def log_interaction (st : LoggerState) (prompt response : String)
    (tools : Option (List ToolRecord)) (toolOk : ToolRecord → Bool)
    (sink : SinkOutcome) :
    LoggerState × InteractionResult × List RemoteEvent :=
  let st' := { st with interaction_count := st.interaction_count + 1 }
  let iid := st.session_id ++ "_" ++ toString st'.interaction_count
  if sink.ok then
    let toolEvents :=
      (tools.getD []).flatMap (fun t => log_tool_usage st t (toolOk t))
    let scoreEvents :=
      match sink.traceId with
      | some t =>
          [RemoteEvent.score "interaction_quality" t
            (calculate_quality_score prompt response tools)]
      | none => []
    (st', InteractionResult.ok iid sink.traceId st'.interaction_count,
      [RemoteEvent.spanOpen "claude_interaction",
       RemoteEvent.traceUpdate st.user_id st.session_id,
       RemoteEvent.spanData "claude_interaction"] ++ toolEvents ++
        scoreEvents ++ [RemoteEvent.flush])
  else
    (st', InteractionResult.err iid sink.errMsg, [])

/-- The statistics dictionary built by `ClaudeCodeLogger.end_session`. -/
structure SessionStats where
  total_interactions : ℕ
  session_duration_seconds : ℚ
  average_interaction_time : ℚ
  deriving DecidableEq, Repr

/-- `end_session`'s return value: the stats on success, `{"error": ...}`
when the remote block raised. -/
inductive EndResult where
  | ok (stats : SessionStats)
  | err (error : String)
  deriving DecidableEq, Repr

/-- `ClaudeCodeLogger.end_session`.  `duration` is the wall-clock elapsed
time `(datetime.now() - self.start_time).total_seconds()`, computed
before the `try`.  On success: session-end span with re-asserted
association and the stats as output; then, if `current_trace_id` is set,
a `session_productivity` score of `min(1.0, interaction_count / 10.0)`;
then a flush.  On failure: `{"error": str(e)}` is returned.  The local
state is never modified. -/
def end_session (st : LoggerState) (duration : ℚ)
    (summary : Option String) (sink : SinkOutcome) :
    LoggerState × EndResult × List RemoteEvent :=
  if sink.ok then
    let stats : SessionStats :=
      { total_interactions := st.interaction_count,
        session_duration_seconds := duration,
        average_interaction_time :=
          duration / ((max 1 st.interaction_count : ℕ) : ℚ) }
    let scoreEvents :=
      match st.current_trace_id with
      | some t =>
          [RemoteEvent.score "session_productivity" t
            (session_productivity_score st.interaction_count)]
      | none => []
    (st, EndResult.ok stats,
      [RemoteEvent.spanOpen "session_end",
       RemoteEvent.traceUpdate st.user_id st.session_id,
       RemoteEvent.spanData "session_end"] ++ scoreEvents ++
        [RemoteEvent.flush])
  else
    (st, EndResult.err sink.errMsg, [])

/-- Runs a sequence of `log_interaction` calls (prompt, response, sink
behaviour per call), threading the logger state. -/
def run_interactions (st : LoggerState) :
    List (String × String × SinkOutcome) → LoggerState
  | [] => st
  | (p, r, sink) :: rest =>
      run_interactions (log_interaction st p r none (fun _ => true) sink).1 rest

/-! ## Process Fleet Monitor (src/global_observer.py) -/

/-- A discovered Claude Code process (the `ClaudeProcess` dataclass,
restricted to the fields the monitor's control flow reads). -/
structure ClaudeProcess where
  pid : ℕ
  terminal : String
  working_directory : Option String
  deriving DecidableEq, Repr

/-- One value of the `discovered_processes` dict: the process plus
whether `logger_instance` is set (a Session recorder was constructed,
started and attached by `instrument_process`). -/
structure TrackedProc where
  proc : ClaudeProcess
  hasLogger : Bool
  deriving DecidableEq, Repr

/-- Observable monitor actions: `endSession pid raised` records that
`end_session` was invoked on the session tracked for `pid` (and whether
that call raised — the bare `except: pass` swallows it);
`instrument pid` records that `instrument_process` was invoked for
`pid`, i.e. a Session recorder was constructed and started. -/
inductive MonitorEvent where
  | endSession (pid : ℕ) (raised : Bool)
  | instrument (pid : ℕ)
  deriving DecidableEq, Repr

/-- Pids of a tracked association list (the dict's key set). -/
def trackedPids (tracked : List TrackedProc) : List ℕ :=
  tracked.map (fun e => e.proc.pid)

/-- The dead-process phase of `monitor_loop`: every tracked pid absent
from the current snapshot is deleted from the dict. -/
def remove_dead (tracked : List TrackedProc) (currentPids : List ℕ) :
    List TrackedProc :=
  tracked.filter (fun e => decide (e.proc.pid ∈ currentPids))

/-- The `end_session` calls performed by the dead-process phase: for
every tracked pid absent from the current snapshot whose record has a
logger instance, `end_session` is invoked (a raise, `endFails`, is
swallowed by the bare `except: pass`). -/
def dead_events : List TrackedProc → List ℕ → (ℕ → Bool) → List MonitorEvent
  | [], _, _ => []
  | e :: rest, currentPids, endFails =>
    if e.proc.pid ∈ currentPids then dead_events rest currentPids endFails
    else if e.hasLogger then
      MonitorEvent.endSession e.proc.pid (endFails e.proc.pid) ::
        dead_events rest currentPids endFails
    else dead_events rest currentPids endFails

/-- The new-process phase of `monitor_loop`: for each snapshot process
whose pid is not yet a key of the (evolving) dict, `instrument_process`
is attempted; the process is stored only when it returns `True`
(`instrumentOk`). -/
def add_new (tracked : List TrackedProc) (evs : List MonitorEvent) :
    List ClaudeProcess → (ℕ → Bool) → List TrackedProc × List MonitorEvent
  | [], _ => (tracked, evs)
  | p :: ps, instrumentOk =>
    if p.pid ∈ trackedPids tracked then
      add_new tracked evs ps instrumentOk
    else if instrumentOk p.pid then
      add_new (tracked ++ [{ proc := p, hasLogger := true }])
        (evs ++ [MonitorEvent.instrument p.pid]) ps instrumentOk
    else
      add_new tracked (evs ++ [MonitorEvent.instrument p.pid]) ps instrumentOk

/-- One iteration of the body of `GlobalClaudeObserver.monitor_loop`:
compute the snapshot's pid set, finalize and remove dead processes,
then discover and instrument new ones (the dead-process phase runs
first, so its `end_session` calls precede all `instrument_process`
calls of the same iteration). -/
def monitor_step (tracked : List TrackedProc) (snapshot : List ClaudeProcess)
    (instrumentOk : ℕ → Bool) (endFails : ℕ → Bool) :
    List TrackedProc × List MonitorEvent :=
  ((add_new (remove_dead tracked (snapshot.map (fun p => p.pid))) []
      snapshot instrumentOk).1,
    dead_events tracked (snapshot.map (fun p => p.pid)) endFails ++
      (add_new (remove_dead tracked (snapshot.map (fun p => p.pid))) []
        snapshot instrumentOk).2)

/-- One row of the `status()` report's `processes` list. -/
structure ProcStatus where
  pid : ℕ
  terminal : String
  instrumented : Bool
  deriving DecidableEq, Repr

/-- The dict returned by `GlobalClaudeObserver.status`. -/
structure StatusReport where
  total_processes : ℕ
  instrumented_processes : ℕ
  processes : List ProcStatus
  deriving DecidableEq, Repr

/-- Dict insertion `discovered_processes[proc.pid] = proc` for a process
discovered by `status()` (no `instrument_process` call, so no logger). -/
def insert_discovered (tracked : List TrackedProc) (p : ClaudeProcess) :
    List TrackedProc :=
  if p.pid ∈ trackedPids tracked then
    tracked.map (fun e =>
      if e.proc.pid = p.pid then { proc := p, hasLogger := false } else e)
  else tracked ++ [{ proc := p, hasLogger := false }]

/-- `GlobalClaudeObserver.status`: when the tracked dict is empty it
first runs a discovery and stores every discovered process (without
instrumenting it); then it reports counts and per-process rows. -/
def observer_status (tracked : List TrackedProc)
    (snapshot : List ClaudeProcess) : List TrackedProc × StatusReport :=
  let tracked' :=
    if tracked.isEmpty then snapshot.foldl insert_discovered tracked
    else tracked
  (tracked',
    { total_processes := tracked'.length,
      instrumented_processes := (tracked'.filter (fun e => e.hasLogger)).length,
      processes := tracked'.map (fun e =>
        { pid := e.proc.pid, terminal := e.proc.terminal,
          instrumented := e.hasLogger }) })

/-! ## Terminal detection (src/claude_session_manager.py) -/

/-- Outcomes of the probes used by
`ClaudeSessionManager._detect_terminal`.  For the three environment
variables, `none` models an unset variable (`os.getenv` returns `None`,
which is falsy, so the loop continues — `os.getenv` never raises).  For
the tty probe, `none` models `os.ttyname(sys.stdin.fileno())` raising
(e.g. stdin is not a tty); `some t` is the returned device path. -/
structure TermEnv where
  termSessionId : Option String
  tmuxPane : Option String
  windowId : Option String
  ttyName : Option String
  deriving DecidableEq, Repr

/-- `s.split('/')[-1]` on a Python string. -/
def lastPathComponent (s : String) : String :=
  ((s.splitOn "/").getLast?).getD s

/-- The five entries of `terminal_methods`, in order, each as the value
the lambda produces (`none` = the lambda raised or returned `None`).
The fifth entry, `lambda: f"pid_{self.pid}"`, never raises and is never
empty. -/
def terminal_method_results (pid : ℕ) (env : TermEnv) :
    List (Option String) :=
  [env.termSessionId,
   env.tmuxPane,
   env.windowId,
   env.ttyName.map (fun t => "tty_" ++ lastPathComponent t),
   some ("pid_" ++ toString pid)]

/-- Python truthiness filter for the loop body `if result: return
str(result)`: a raised probe (`none`) and an empty string both fall
through to the next method. -/
def truthyResult : Option String → Option String
  | some s => if s = "" then none else some s
  | none => none

/-- `ClaudeSessionManager._detect_terminal`: return the first truthy
method result; if the loop exhausts all methods, return
`"unknown_<pid>"`.  (The outer `except Exception` returning
`"fallback_<pid>"` guards only code outside the per-method `try`, none
of which can raise, so it has no counterpart in the model.) -/
def detect_terminal (pid : ℕ) (env : TermEnv) : String :=
  ((terminal_method_results pid env).findSome? truthyResult).getD
    ("unknown_" ++ toString pid)

/-! ## Theorems -/

/-- C5: for every prompt, response and tool list,
`_calculate_quality_score` equals
`min(1.0, 0.5 + (0.2 if len(prompt) > 50) + (0.2 if len(response) > 100)
+ (min(0.3, 0.1 * len(tools)) if tools present and non-empty))`; it
always lies in `[0.5, 1.0]`; it yields 0.5 on `("", "", [])`, 1.0 on a
51-char prompt with a 101-char response and 5 tools, and 0.7 on a
51-char prompt alone or a 101-char response alone. -/
theorem C5_quality_score_formula :
    (∀ (p r : String) (ts : Option (List ToolRecord)),
      calculate_quality_score p r ts =
        min 1 ((1/2 : ℚ)
          + (if p.length > 50 then 1/5 else 0)
          + (if r.length > 100 then 1/5 else 0)
          + (match ts with
             | some l =>
                 if l.isEmpty then 0
                 else min (3/10) ((l.length : ℚ) * (1/10))
             | none => 0))) ∧
    (∀ (p r : String) (ts : Option (List ToolRecord)),
      1/2 ≤ calculate_quality_score p r ts ∧
        calculate_quality_score p r ts ≤ 1) ∧
    calculate_quality_score "" "" (some []) = 1/2 ∧
    calculate_quality_score (String.mk (List.replicate 51 'a'))
      (String.mk (List.replicate 101 'b'))
      (some [{ name := "t1" }, { name := "t2" }, { name := "t3" },
             { name := "t4" }, { name := "t5" }]) = 1 ∧
    calculate_quality_score (String.mk (List.replicate 51 'a')) ""
      (some []) = 7/10 ∧
    calculate_quality_score "" (String.mk (List.replicate 101 'b'))
      (some []) = 7/10 := by
  refine ⟨?_, ?_, ?conc1, ?conc2, ?conc3, ?conc4⟩
  case conc1 | conc2 | conc3 | conc4 =>
    norm_num [calculate_quality_score, String.length, min_def]
  · intro p r ts
    unfold calculate_quality_score
    rcases ts with _ | l
    · split_ifs <;> norm_num
    · by_cases hl : l.isEmpty <;> split_ifs <;> simp [hl]
  · intro p r ts
    unfold calculate_quality_score
    rcases ts with _ | l
    · dsimp only
      split_ifs <;>
        refine ⟨le_min (by norm_num) (by norm_num), min_le_left _ _⟩
    · dsimp only
      have h0 : (0 : ℚ) ≤ min (3/10) ((l.length : ℚ) * (1/10)) :=
        le_min (by norm_num) (by positivity)
      split_ifs <;>
        exact ⟨le_min (by norm_num) (by linarith), min_le_left _ _⟩

/-- C1: every remote emission of the Session Recorder — `start_session`,
`log_interaction`, each `_log_tool_usage` call, and `end_session` —
re-asserts the trace-level `(user_id, session_id)` association: the
events each operation emits contain an `update_current_trace` carrying
the recorder's current `user_id` and `session_id`. -/
theorem C1_reassert_association (st : LoggerState)
    (metadata : List (String × String)) (p r : String)
    (tools : Option (List ToolRecord)) (toolOk : ToolRecord → Bool)
    (tool : ToolRecord) (d : ℚ) (summary : Option String)
    (sink : SinkOutcome) (h : sink.ok = true) :
    RemoteEvent.traceUpdate st.user_id st.session_id ∈
        (start_session st metadata sink).2.2 ∧
    RemoteEvent.traceUpdate st.user_id st.session_id ∈
        (log_interaction st p r tools toolOk sink).2.2 ∧
    RemoteEvent.traceUpdate st.user_id st.session_id ∈
        log_tool_usage st tool true ∧
    RemoteEvent.traceUpdate st.user_id st.session_id ∈
        (end_session st d summary sink).2.2 := by
  refine ⟨?_, ?_, ?_, ?_⟩ <;>
    simp [start_session, log_interaction, log_tool_usage, end_session, h]

/-- Witness for C1 at a concrete recorder, call arguments and sink. -/
theorem C1_witness :
    RemoteEvent.traceUpdate "u" "s" ∈
        (start_session (initLogger "u" "s") [] ⟨true, some "t", ""⟩).2.2 ∧
    RemoteEvent.traceUpdate "u" "s" ∈
        (log_interaction (initLogger "u" "s") "p" "r" none (fun _ => true)
          ⟨true, some "t", ""⟩).2.2 ∧
    RemoteEvent.traceUpdate "u" "s" ∈
        log_tool_usage (initLogger "u" "s") { name := "T" } true ∧
    RemoteEvent.traceUpdate "u" "s" ∈
        (end_session (initLogger "u" "s") 1 none ⟨true, some "t", ""⟩).2.2 :=
  C1_reassert_association (initLogger "u" "s") [] "p" "r" none
    (fun _ => true) { name := "T" } 1 none ⟨true, some "t", ""⟩ rfl

/-- C4: `start_session` never propagates an exception: for every
metadata argument and every sink behaviour (including a raising one) it
returns the locally-known `session_id`; on remote failure the state is
untouched, so on a fresh recorder `current_trace_id` remains unset. -/
theorem C4_start_never_raises (st : LoggerState) (u s : String)
    (metadata : List (String × String)) (sink : SinkOutcome) :
    (start_session st metadata sink).2.1 = st.session_id ∧
    (sink.ok = false → (start_session st metadata sink).1 = st) ∧
    (sink.ok = false →
      (start_session (initLogger u s) metadata sink).1.current_trace_id =
        none) := by
  refine ⟨?_, fun h => ?_, fun h => ?_⟩
  · by_cases h : sink.ok <;> simp [start_session, h]
  · simp [start_session, h]
  · simp [start_session, h, initLogger]

/-- Witness for C4 with a sink that raises. -/
theorem C4_witness :
    (start_session (initLogger "u" "s") [] ⟨false, none, "boom"⟩).2.1 =
      "s" ∧
    (start_session (initLogger "u" "s") [] ⟨false, none, "boom"⟩).1 =
      initLogger "u" "s" ∧
    (start_session (initLogger "u" "s") [] ⟨false, none, "boom"⟩).1.current_trace_id =
      none := by
  have h := C4_start_never_raises (initLogger "u" "s") "u" "s" []
    ⟨false, none, "boom"⟩
  exact ⟨h.1, h.2.1 rfl, h.2.2 rfl⟩

/-- Whatever the sink does, `log_interaction` increments
`interaction_count` by exactly one and changes nothing else locally. -/
lemma log_interaction_state (st : LoggerState) (p r : String)
    (tools : Option (List ToolRecord)) (toolOk : ToolRecord → Bool)
    (sink : SinkOutcome) :
    (log_interaction st p r tools toolOk sink).1 =
      { st with interaction_count := st.interaction_count + 1 } := by
  by_cases h : sink.ok <;> simp [log_interaction, h]

/-- Running a sequence of `log_interaction` calls adds the sequence's
length to `interaction_count`, whatever each call's sink did. -/
lemma run_interactions_count :
    ∀ (calls : List (String × String × SinkOutcome)) (st : LoggerState),
      (run_interactions st calls).interaction_count =
        st.interaction_count + calls.length
  | [], st => by simp [run_interactions]
  | (p, r, sink) :: rest, st => by
      rw [run_interactions, run_interactions_count rest,
        log_interaction_state]
      simp
      omega

/-- C3: after any sequence of N `log_interaction` calls,
`interaction_count` has grown by exactly N regardless of which remote
calls failed; each call increments the counter exactly once (before
any remote call, and never rolled back), and on remote failure the call
returns the error dictionary carrying the `interaction_id` derived from
`session_id` and the incremented count, instead of raising. -/
theorem C3_count_reflects_attempts (st : LoggerState)
    (calls : List (String × String × SinkOutcome)) :
    (run_interactions st calls).interaction_count =
      st.interaction_count + calls.length ∧
    (∀ (p r : String) (tools : Option (List ToolRecord))
        (toolOk : ToolRecord → Bool) (sink : SinkOutcome),
      (log_interaction st p r tools toolOk sink).1.interaction_count =
        st.interaction_count + 1) ∧
    (∀ (p r : String) (tools : Option (List ToolRecord))
        (toolOk : ToolRecord → Bool) (sink : SinkOutcome),
      sink.ok = false →
        (log_interaction st p r tools toolOk sink).2.1 =
          InteractionResult.err
            (st.session_id ++ "_" ++ toString (st.interaction_count + 1))
            sink.errMsg) := by
  refine ⟨run_interactions_count calls st, ?_, ?_⟩
  · intro p r tools toolOk sink
    rw [log_interaction_state]
  · intro p r tools toolOk sink h
    simp [log_interaction, h]

/-- Witness for C3: two calls, the first failing, on a fresh recorder. -/
theorem C3_witness :
    (run_interactions (initLogger "u" "s")
        [("p", "r", ⟨false, none, "boom"⟩),
         ("q", "t", ⟨true, some "x", ""⟩)]).interaction_count = 2 ∧
    (log_interaction (initLogger "u" "s") "p" "r" none (fun _ => true)
        ⟨false, none, "boom"⟩).2.1 =
      InteractionResult.err "s_1" "boom" := by
  have h := C3_count_reflects_attempts (initLogger "u" "s")
    [("p", "r", ⟨false, none, "boom"⟩), ("q", "t", ⟨true, some "x", ""⟩)]
  exact ⟨h.1, h.2.2 "p" "r" none (fun _ => true) ⟨false, none, "boom"⟩ rfl⟩

/-- C6: `end_session` returns the statistics
`{total_interactions = interaction_count, session_duration_seconds =
duration, average_interaction_time = duration / max(1,
interaction_count)}` (the `max(1, ...)` guarding division by zero);
when a trace id exists it emits a `session_productivity` score of
`min(1.0, interaction_count / 10.0)` (0 interactions score 0.0, 5 score
0.5, 10 or more score 1.0); on remote failure it returns an
error-tagged result instead. -/
theorem C6_end_session_stats (st : LoggerState) (duration : ℚ)
    (summary : Option String) (sink : SinkOutcome) :
    (sink.ok = true →
      (end_session st duration summary sink).2.1 =
        EndResult.ok
          { total_interactions := st.interaction_count,
            session_duration_seconds := duration,
            average_interaction_time :=
              duration / ((max 1 st.interaction_count : ℕ) : ℚ) } ∧
      ∀ t, st.current_trace_id = some t →
        RemoteEvent.score "session_productivity" t
            (session_productivity_score st.interaction_count) ∈
          (end_session st duration summary sink).2.2) ∧
    (sink.ok = false →
      (end_session st duration summary sink).2.1 =
        EndResult.err sink.errMsg) ∧
    session_productivity_score 0 = 0 ∧
    session_productivity_score 5 = 1/2 ∧
    (∀ n, 10 ≤ n → session_productivity_score n = 1) := by
  refine ⟨fun h => ⟨?_, ?_⟩, fun h => ?_, ?_, ?_, ?_⟩
  · simp [end_session, h]
  · intro t ht
    simp [end_session, h, ht]
  · simp [end_session, h]
  · norm_num [session_productivity_score, min_def]
  · norm_num [session_productivity_score, min_def]
  · intro n hn
    have h10 : (1 : ℚ) ≤ (n : ℚ) / 10 := by
      rw [le_div_iff₀ (by norm_num)]
      have : (10 : ℚ) ≤ (n : ℚ) := by exact_mod_cast hn
      linarith
    exact min_eq_left h10

/-- Witness for C6: a recorder with a trace id and no interactions,
duration 3 seconds, once with a working sink and once with a raising
one. -/
theorem C6_witness :
    (end_session
        { user_id := "u", session_id := "s", interaction_count := 0,
          current_trace_id := some "t" } 3 none ⟨true, none, ""⟩).2.1 =
      EndResult.ok
        { total_interactions := 0, session_duration_seconds := 3,
          average_interaction_time := 3 / ((max 1 0 : ℕ) : ℚ) } ∧
    RemoteEvent.score "session_productivity" "t"
        (session_productivity_score 0) ∈
      (end_session
        { user_id := "u", session_id := "s", interaction_count := 0,
          current_trace_id := some "t" } 3 none ⟨true, none, ""⟩).2.2 ∧
    (end_session
        { user_id := "u", session_id := "s", interaction_count := 0,
          current_trace_id := some "t" } 3 none ⟨false, none, "down"⟩).2.1 =
      EndResult.err "down" ∧
    session_productivity_score 10 = 1 := by
  have h1 := C6_end_session_stats
    { user_id := "u", session_id := "s", interaction_count := 0,
      current_trace_id := some "t" } 3 none ⟨true, none, ""⟩
  have h2 := C6_end_session_stats
    { user_id := "u", session_id := "s", interaction_count := 0,
      current_trace_id := some "t" } 3 none ⟨false, none, "down"⟩
  exact ⟨(h1.1 rfl).1, (h1.1 rfl).2 "t" rfl, h2.2.1 rfl,
    h1.2.2.2.2 10 (by norm_num)⟩

/-- C2 counterexample: the recorder is not a state machine.  On a fresh,
never-started recorder, `log_interaction` performs its normal effect —
it increments `interaction_count` and returns its normal success
dictionary — instead of returning a "not active" error result, because
`ClaudeCodeLogger` keeps no lifecycle flag at all; and a second
`end_session` call re-emits the session-end span instead of being
rejected or a no-op. -/
theorem C2_counterexample :
    (log_interaction (initLogger "u" "s") "p" "r" none (fun _ => true)
        ⟨true, some "t", ""⟩).2.1 =
      InteractionResult.ok "s_1" (some "t") 1 ∧
    (log_interaction (initLogger "u" "s") "p" "r" none (fun _ => true)
        ⟨true, some "t", ""⟩).1.interaction_count = 1 ∧
    RemoteEvent.spanOpen "session_end" ∈
      (end_session
        (end_session (initLogger "u" "s") 2 none ⟨true, some "t", ""⟩).1
        5 none ⟨true, some "t", ""⟩).2.2 := by
  refine ⟨rfl, rfl, ?_⟩
  simp [end_session, initLogger]

/-- C2 amended: the recorder keeps no lifecycle state.
`log_interaction` performs its normal effect on every recorder state —
in particular before `start_session` and after `end_session` — and a
second `end_session` call does not crash and does not change
`interaction_count` (so statistics are not double-counted), but it does
re-emit the session-end span (and score/flush) a second time. -/
theorem C2_amended_no_state_machine (st : LoggerState) (p r : String)
    (tools : Option (List ToolRecord)) (toolOk : ToolRecord → Bool)
    (d d' : ℚ) (sm sm' : Option String) (sink : SinkOutcome)
    (h : sink.ok = true) :
    ((log_interaction st p r tools toolOk sink).1.interaction_count =
        st.interaction_count + 1 ∧
      (log_interaction st p r tools toolOk sink).2.1 =
        InteractionResult.ok
          (st.session_id ++ "_" ++ toString (st.interaction_count + 1))
          sink.traceId (st.interaction_count + 1)) ∧
    (end_session st d sm sink).1 = st ∧
    (end_session (end_session st d sm sink).1 d' sm' sink).2.1 =
      EndResult.ok
        { total_interactions := st.interaction_count,
          session_duration_seconds := d',
          average_interaction_time :=
            d' / ((max 1 st.interaction_count : ℕ) : ℚ) } ∧
    RemoteEvent.spanOpen "session_end" ∈
      (end_session (end_session st d sm sink).1 d' sm' sink).2.2 := by
  have hst : (end_session st d sm sink).1 = st := by
    by_cases hok : sink.ok <;> simp [end_session, hok]
  refine ⟨⟨?_, ?_⟩, hst, ?_, ?_⟩
  · rw [log_interaction_state]
  · simp [log_interaction, h]
  · rw [hst]; simp [end_session, h]
  · rw [hst]; simp [end_session, h]

/-- Witness for C2's amended claim on a fresh recorder with a working
sink. -/
theorem C2_amended_witness :
    ((log_interaction (initLogger "u" "s") "p" "r" none (fun _ => true)
          ⟨true, some "t", ""⟩).1.interaction_count = 1 ∧
      (log_interaction (initLogger "u" "s") "p" "r" none (fun _ => true)
          ⟨true, some "t", ""⟩).2.1 =
        InteractionResult.ok "s_1" (some "t") 1) ∧
    (end_session (initLogger "u" "s") 2 none ⟨true, some "t", ""⟩).1 =
      initLogger "u" "s" ∧
    (end_session
        (end_session (initLogger "u" "s") 2 none ⟨true, some "t", ""⟩).1
        5 none ⟨true, some "t", ""⟩).2.1 =
      EndResult.ok
        { total_interactions := 0, session_duration_seconds := 5,
          average_interaction_time := 5 / ((max 1 0 : ℕ) : ℚ) } ∧
    RemoteEvent.spanOpen "session_end" ∈
      (end_session
        (end_session (initLogger "u" "s") 2 none ⟨true, some "t", ""⟩).1
        5 none ⟨true, some "t", ""⟩).2.2 :=
  C2_amended_no_state_machine (initLogger "u" "s") "p" "r" none
    (fun _ => true) 2 5 none none ⟨true, some "t", ""⟩ rfl

/-- `truthyResult` maps a raised probe to `none`. -/
lemma truthyResult_none : truthyResult none = none := rfl

/-- The fifth terminal probe, `lambda: f"pid_{self.pid}"`, always yields
a truthy (non-empty) string. -/
lemma truthy_pid_token (pid : ℕ) :
    truthyResult (some ("pid_" ++ toString pid)) =
      some ("pid_" ++ toString pid) := by
  have hne : ("pid_" ++ toString pid) ≠ "" := by
    intro h
    have hlen := congrArg String.length h
    rw [String.length_append] at hlen
    have h4 : ("pid_" : String).length = 4 := rfl
    have h0 : ("" : String).length = 0 := rfl
    omega
  simp [truthyResult, hne]

/-- C9 counterexample: in an environment where all four named probes
fail (no terminal session id, no multiplexer pane, no window id, and
the tty probe raises), `_detect_terminal` returns `"pid_<pid>"` — the
always-truthy fifth probe — and not `"unknown_<pid>"` as the claim's
fallback order states. -/
theorem C9_counterexample :
    detect_terminal 7
        { termSessionId := none, tmuxPane := none, windowId := none,
          ttyName := none } = "pid_7" ∧
    detect_terminal 7
        { termSessionId := none, tmuxPane := none, windowId := none,
          ttyName := none } ≠ "unknown_7" := by
  constructor
  · rfl
  · decide

/-- C9 amended: `_detect_terminal` tries, in fixed priority order, the
terminal session id, the multiplexer pane id, the window id, the tty
device name, and finally an always-available `"pid_<pid>"` token, and
returns the first truthy probe result; because the fifth probe never
raises and is never empty, the `"unknown_<pid>"` (and outer
`"fallback_<pid>"`) fallbacks are unreachable, and when every one of
the four named probes raises or is unset the result is `"pid_<pid>"`. -/
theorem C9_probe_priority (pid : ℕ) (env : TermEnv) :
    (∃ r, (terminal_method_results pid env).findSome? truthyResult =
        some r ∧ detect_terminal pid env = r) ∧
    (truthyResult env.termSessionId = none →
      truthyResult env.tmuxPane = none →
      truthyResult env.windowId = none →
      env.ttyName = none →
      detect_terminal pid env = "pid_" ++ toString pid) := by
  constructor
  · rcases h1 : truthyResult env.termSessionId with _ | r1
    · rcases h2 : truthyResult env.tmuxPane with _ | r2
      · rcases h3 : truthyResult env.windowId with _ | r3
        · rcases h4 : truthyResult (env.ttyName.map
              (fun t => "tty_" ++ lastPathComponent t)) with _ | r4
          · exact ⟨"pid_" ++ toString pid, by
              simp [terminal_method_results, List.findSome?, h1, h2, h3,
                h4, truthy_pid_token pid, detect_terminal], by
              simp [detect_terminal, terminal_method_results,
                List.findSome?, h1, h2, h3, h4, truthy_pid_token pid]⟩
          · exact ⟨r4, by
              simp [terminal_method_results, List.findSome?, h1, h2, h3,
                h4], by
              simp [detect_terminal, terminal_method_results,
                List.findSome?, h1, h2, h3, h4]⟩
        · exact ⟨r3, by
            simp [terminal_method_results, List.findSome?, h1, h2, h3], by
            simp [detect_terminal, terminal_method_results,
              List.findSome?, h1, h2, h3]⟩
      · exact ⟨r2, by
          simp [terminal_method_results, List.findSome?, h1, h2], by
          simp [detect_terminal, terminal_method_results,
            List.findSome?, h1, h2]⟩
    · exact ⟨r1, by
        simp [terminal_method_results, List.findSome?, h1], by
        simp [detect_terminal, terminal_method_results,
          List.findSome?, h1]⟩
  · intro h1 h2 h3 h4
    simp [detect_terminal, terminal_method_results, List.findSome?, h1,
      h2, h3, h4, truthyResult_none, truthy_pid_token pid]

/-- Witness for C9's amended claim: all four named probes fail. -/
theorem C9_probe_priority_witness :
    (∃ r, (terminal_method_results 3
        { termSessionId := none, tmuxPane := none, windowId := none,
          ttyName := none }).findSome? truthyResult = some r ∧
      detect_terminal 3
        { termSessionId := none, tmuxPane := none, windowId := none,
          ttyName := none } = r) ∧
    detect_terminal 3
        { termSessionId := none, tmuxPane := none, windowId := none,
          ttyName := none } = "pid_" ++ toString 3 :=
  ⟨(C9_probe_priority 3
      { termSessionId := none, tmuxPane := none, windowId := none,
        ttyName := none }).1,
   (C9_probe_priority 3
      { termSessionId := none, tmuxPane := none, windowId := none,
        ttyName := none }).2 rfl rfl rfl rfl⟩

/-- Inserting a discovered (uninstrumented) process preserves the
"no logger" property of every entry. -/
lemma insert_discovered_hasLogger (tracked : List TrackedProc)
    (p : ClaudeProcess)
    (h : ∀ e ∈ tracked, e.hasLogger = false) :
    ∀ e ∈ insert_discovered tracked p, e.hasLogger = false := by
  intro e he
  unfold insert_discovered at he
  split at he
  · rcases List.mem_map.mp he with ⟨e0, he0, rfl⟩
    split <;> simp_all
  · rcases List.mem_append.mp he with h0 | h0
    · exact h e h0
    · simp_all

/-- Inserting `p` either leaves the key list unchanged (key present,
value overwritten in place) or appends `p.pid`. -/
lemma trackedPids_insert (tracked : List TrackedProc) (p : ClaudeProcess) :
    trackedPids (insert_discovered tracked p) =
      if p.pid ∈ trackedPids tracked then trackedPids tracked
      else trackedPids tracked ++ [p.pid] := by
  unfold insert_discovered
  split
  case isTrue h =>
    unfold trackedPids
    rw [List.map_map]
    apply List.map_congr_left
    intro e _
    by_cases he : e.proc.pid = p.pid <;> simp [he]
  case isFalse h =>
    simp [trackedPids]

/-- After inserting `p`, `p.pid` is a key, and existing keys survive. -/
lemma insert_discovered_pids (tracked : List TrackedProc)
    (p : ClaudeProcess) :
    p.pid ∈ trackedPids (insert_discovered tracked p) ∧
    ∀ q ∈ trackedPids tracked,
      q ∈ trackedPids (insert_discovered tracked p) := by
  rw [trackedPids_insert]
  constructor
  · split
    case isTrue h => exact h
    case isFalse h => simp
  · intro q hq
    split
    · exact hq
    · exact List.mem_append_left _ hq

/-- Folding discovery insertions keeps every entry logger-free. -/
lemma foldl_insert_hasLogger :
    ∀ (ps : List ClaudeProcess) (acc : List TrackedProc),
      (∀ e ∈ acc, e.hasLogger = false) →
      ∀ e ∈ ps.foldl insert_discovered acc, e.hasLogger = false
  | [], acc, h => h
  | p :: ps, acc, h =>
      foldl_insert_hasLogger ps (insert_discovered acc p)
        (insert_discovered_hasLogger acc p h)

/-- Folding discovery insertions records every inserted pid. -/
lemma foldl_insert_pids :
    ∀ (ps : List ClaudeProcess) (acc : List TrackedProc),
      (∀ p ∈ ps, p.pid ∈ trackedPids (ps.foldl insert_discovered acc)) ∧
      (∀ q ∈ trackedPids acc,
        q ∈ trackedPids (ps.foldl insert_discovered acc))
  | [], acc => ⟨by simp, fun q hq => hq⟩
  | p :: ps, acc => by
      have ih := foldl_insert_pids ps (insert_discovered acc p)
      refine ⟨?_, ?_⟩
      · intro p' hp'
        rcases List.mem_cons.mp hp' with rfl | hp'
        · exact ih.2 p'.pid (insert_discovered_pids acc p').1
        · exact ih.1 p' hp'
      · intro q hq
        exact ih.2 q ((insert_discovered_pids acc p).2 q hq)

/-- C10: `status()` is not read-only.  On an observer whose tracked set
is empty it runs a discovery and inserts every discovered process into
the tracked set with no session started (no logger instance, reported
as not instrumented); on a non-empty tracked set it leaves the set
unchanged. -/
theorem C10_status_mutates (tracked : List TrackedProc)
    (snapshot : List ClaudeProcess) :
    (tracked = [] →
      (∀ p ∈ snapshot,
        p.pid ∈ trackedPids (observer_status tracked snapshot).1) ∧
      (∀ e ∈ (observer_status tracked snapshot).1,
        e.hasLogger = false) ∧
      (observer_status tracked snapshot).2.instrumented_processes = 0 ∧
      (∀ row ∈ (observer_status tracked snapshot).2.processes,
        row.instrumented = false)) ∧
    (tracked ≠ [] → (observer_status tracked snapshot).1 = tracked) := by
  constructor
  · rintro rfl
    have hlog : ∀ e ∈ snapshot.foldl insert_discovered
        ([] : List TrackedProc), e.hasLogger = false :=
      foldl_insert_hasLogger snapshot [] (by simp)
    refine ⟨?_, ?_, ?_, ?_⟩
    · intro p hp
      simpa [observer_status] using
        (foldl_insert_pids snapshot []).1 p hp
    · intro e he
      simp only [observer_status, List.isEmpty_nil, if_pos] at he
      exact hlog e he
    · simp only [observer_status, List.isEmpty_nil, if_pos]
      rw [List.filter_eq_nil_iff.mpr ?_]
      · rfl
      · intro e he hcontra
        exact absurd (hlog e he) (by simp_all)
    · intro row hrow
      simp only [observer_status, List.isEmpty_nil, if_pos] at hrow
      rcases List.mem_map.mp hrow with ⟨e, he, rfl⟩
      exact hlog e he
  · intro h
    have : tracked.isEmpty = false := by
      cases tracked <;> simp_all
    simp [observer_status, this]

/-- A concrete discovered process used by witnesses. -/
def procNine : ClaudeProcess :=
  { pid := 9, terminal := "ttys1", working_directory := none }

/-- A concrete instrumented tracked entry used by witnesses. -/
def entryNine : TrackedProc := { proc := procNine, hasLogger := true }

/-- Witness for C10: empty observer discovering one process, then a
non-empty observer. -/
theorem C10_witness :
    (∀ p ∈ [procNine],
      p.pid ∈ trackedPids (observer_status [] [procNine]).1) ∧
    (observer_status [entryNine] []).1 = [entryNine] :=
  ⟨((C10_status_mutates [] [procNine]).1 rfl).1,
   (C10_status_mutates [entryNine] []).2 (by simp)⟩

/-- Recognizes the `end_session` event for a given pid. -/
def isEndFor (pid : ℕ) : MonitorEvent → Bool
  | MonitorEvent.endSession q _ => q == pid
  | MonitorEvent.instrument _ => false

/-- Keys of an appended tracked list. -/
lemma trackedPids_append (a b : List TrackedProc) :
    trackedPids (a ++ b) = trackedPids a ++ trackedPids b := by
  simp [trackedPids]

/-- A pid survives `remove_dead` exactly when it was tracked and is in
the current snapshot. -/
lemma remove_dead_pids (tracked : List TrackedProc) (cur : List ℕ)
    (q : ℕ) :
    q ∈ trackedPids (remove_dead tracked cur) ↔
      q ∈ trackedPids tracked ∧ q ∈ cur := by
  unfold remove_dead trackedPids
  constructor
  · intro h
    rcases List.mem_map.mp h with ⟨e, he, rfl⟩
    rcases List.mem_filter.mp he with ⟨he1, he2⟩
    exact ⟨List.mem_map.mpr ⟨e, he1, rfl⟩, by simpa using he2⟩
  · rintro ⟨h1, h2⟩
    rcases List.mem_map.mp h1 with ⟨e, he, rfl⟩
    exact List.mem_map.mpr
      ⟨e, List.mem_filter.mpr ⟨he, by simpa using h2⟩, rfl⟩

/-- Every event of the dead-process phase is an `end_session` call. -/
lemma dead_events_all_end :
    ∀ (tracked : List TrackedProc) (cur : List ℕ) (ef : ℕ → Bool)
      (x : MonitorEvent), x ∈ dead_events tracked cur ef →
      ∃ q b, x = MonitorEvent.endSession q b
  | [], _, _, x => by intro h; simp [dead_events] at h
  | e :: rest, cur, ef, x => by
      intro hx
      unfold dead_events at hx
      split at hx
      · exact dead_events_all_end rest cur ef x hx
      · split at hx
        · rcases List.mem_cons.mp hx with rfl | hx'
          · exact ⟨e.proc.pid, ef e.proc.pid, rfl⟩
          · exact dead_events_all_end rest cur ef x hx'
        · exact dead_events_all_end rest cur ef x hx

/-- A pid that is not tracked gets no `end_session` call. -/
lemma dead_events_filter_zero :
    ∀ (tracked : List TrackedProc) (cur : List ℕ) (ef : ℕ → Bool)
      (pid : ℕ), pid ∉ trackedPids tracked →
      (dead_events tracked cur ef).filter (isEndFor pid) = []
  | [], _, _, _ => fun _ => rfl
  | e :: rest, cur, ef, pid => by
      intro h
      have hne : e.proc.pid ≠ pid := fun hc => h (by simp [trackedPids, hc])
      have hrest : pid ∉ trackedPids rest := fun hc =>
        h (by simp [trackedPids] at hc ⊢; exact Or.inr hc)
      unfold dead_events
      split
      · exact dead_events_filter_zero rest cur ef pid hrest
      · split
        · rw [List.filter_cons_of_neg (by simp [isEndFor, hne])]
          exact dead_events_filter_zero rest cur ef pid hrest
        · exact dead_events_filter_zero rest cur ef pid hrest

/-- With pid keys unique (a dict), a dead tracked pid whose record has a
logger receives exactly one `end_session` call. -/
lemma dead_events_filter_one :
    ∀ (tracked : List TrackedProc) (cur : List ℕ) (ef : ℕ → Bool)
      (pid : ℕ), (trackedPids tracked).Nodup →
      (∃ e ∈ tracked, e.proc.pid = pid ∧ e.hasLogger = true) →
      pid ∉ cur →
      ((dead_events tracked cur ef).filter (isEndFor pid)).length = 1
  | [], _, _, _ => by intro _ hex _; simp at hex
  | e :: rest, cur, ef, pid => by
      intro hnd hex hcur
      have hnd2 : (trackedPids rest).Nodup ∧
          e.proc.pid ∉ trackedPids rest := by
        simp [trackedPids] at hnd ⊢
        exact ⟨hnd.2, hnd.1⟩
      by_cases hp : e.proc.pid = pid
      · have hrest0 : pid ∉ trackedPids rest := hp ▸ hnd2.2
        have hlog : e.hasLogger = true := by
          rcases hex with ⟨w, hw, hwp, hwl⟩
          rcases List.mem_cons.mp hw with rfl | hw'
          · exact hwl
          · exact (hrest0
              (List.mem_map.mpr ⟨w, hw', hwp⟩ : pid ∈ trackedPids rest)).elim
        unfold dead_events
        rw [if_neg (hp ▸ hcur), if_pos hlog,
          List.filter_cons_of_pos (by simp [isEndFor, hp]),
          dead_events_filter_zero rest cur ef pid hrest0]
        rfl
      · have hex' : ∃ w ∈ rest, w.proc.pid = pid ∧ w.hasLogger = true := by
          rcases hex with ⟨w, hw, hwp, hwl⟩
          rcases List.mem_cons.mp hw with rfl | hw'
          · exact absurd hwp hp
          · exact ⟨w, hw', hwp, hwl⟩
        unfold dead_events
        split
        · exact dead_events_filter_one rest cur ef pid hnd2.1 hex' hcur
        · split
          · rw [List.filter_cons_of_neg (by simp [isEndFor, hp])]
            exact dead_events_filter_one rest cur ef pid hnd2.1 hex' hcur
          · exact dead_events_filter_one rest cur ef pid hnd2.1 hex' hcur

/-- Every event produced by the new-process phase beyond the initial
accumulator is an `instrument_process` attempt. -/
lemma add_new_events_mem :
    ∀ (ps : List ClaudeProcess) (acc : List TrackedProc)
      (evs : List MonitorEvent) (ok : ℕ → Bool) (x : MonitorEvent),
      x ∈ (add_new acc evs ps ok).2 →
      x ∈ evs ∨ ∃ q, x = MonitorEvent.instrument q
  | [], acc, evs, ok, x => by
      intro hx
      exact Or.inl (by simpa [add_new] using hx)
  | p :: ps, acc, evs, ok, x => by
      intro hx
      unfold add_new at hx
      split at hx
      · exact add_new_events_mem ps acc evs ok x hx
      · split at hx
        · rcases add_new_events_mem ps _ _ ok x hx with h | h
          · rcases List.mem_append.mp h with h' | h'
            · exact Or.inl h'
            · exact Or.inr ⟨p.pid, by simpa using h'⟩
          · exact Or.inr h
        · rcases add_new_events_mem ps _ _ ok x hx with h | h
          · rcases List.mem_append.mp h with h' | h'
            · exact Or.inl h'
            · exact Or.inr ⟨p.pid, by simpa using h'⟩
          · exact Or.inr h

/-- The new-process phase never removes a key. -/
lemma add_new_pids_mono :
    ∀ (ps : List ClaudeProcess) (acc : List TrackedProc)
      (evs : List MonitorEvent) (ok : ℕ → Bool) (q : ℕ),
      q ∈ trackedPids acc → q ∈ trackedPids (add_new acc evs ps ok).1
  | [], acc, evs, ok, q => fun h => by simpa [add_new] using h
  | p :: ps, acc, evs, ok, q => fun h => by
      unfold add_new
      split
      · exact add_new_pids_mono ps acc evs ok q h
      · split
        · exact add_new_pids_mono ps _ _ ok q
            (by rw [trackedPids_append]; exact List.mem_append_left _ h)
        · exact add_new_pids_mono ps acc _ ok q h

/-- A snapshot pid whose instrumentation succeeds ends up tracked. -/
lemma add_new_mem_of_ok :
    ∀ (ps : List ClaudeProcess) (acc : List TrackedProc)
      (evs : List MonitorEvent) (ok : ℕ → Bool) (pid : ℕ),
      pid ∈ ps.map (fun p => p.pid) → ok pid = true →
      pid ∈ trackedPids (add_new acc evs ps ok).1
  | [], _, _, _, pid => by intro h _; simp at h
  | p :: ps, acc, evs, ok, pid => by
      intro hin hok
      by_cases hpp : p.pid = pid
      · unfold add_new
        split
        next hmem =>
          exact add_new_pids_mono ps acc evs ok pid (hpp ▸ hmem)
        next hmem =>
          rw [if_pos (by rw [hpp]; exact hok)]
          refine add_new_pids_mono ps _ _ ok pid ?_
          rw [trackedPids_append]
          exact List.mem_append_right _ (by simp [trackedPids, hpp])
      · have hin' : pid ∈ ps.map (fun p => p.pid) := by
          rcases List.mem_map.mp hin with ⟨w, hw, hwp⟩
          rcases List.mem_cons.mp hw with rfl | hw'
          · exact absurd hwp hpp
          · exact List.mem_map.mpr ⟨w, hw', hwp⟩
        unfold add_new
        split
        · exact add_new_mem_of_ok ps acc evs ok pid hin' hok
        · split
          · exact add_new_mem_of_ok ps _ _ ok pid hin' hok
          · exact add_new_mem_of_ok ps acc _ ok pid hin' hok

/-- A key of the new-process phase's result was already a key or belongs
to a snapshot process whose instrumentation succeeded. -/
lemma add_new_pids_sub :
    ∀ (ps : List ClaudeProcess) (acc : List TrackedProc)
      (evs : List MonitorEvent) (ok : ℕ → Bool) (q : ℕ),
      q ∈ trackedPids (add_new acc evs ps ok).1 →
      q ∈ trackedPids acc ∨
        (q ∈ ps.map (fun p => p.pid) ∧ ok q = true)
  | [], acc, evs, ok, q => by
      intro h
      exact Or.inl (by simpa [add_new] using h)
  | p :: ps, acc, evs, ok, q => by
      intro h
      unfold add_new at h
      split at h
      · rcases add_new_pids_sub ps acc evs ok q h with h' | ⟨h1, h2⟩
        · exact Or.inl h'
        · exact Or.inr ⟨by simp [h1], h2⟩
      · split at h
        case isTrue hok =>
          rcases add_new_pids_sub ps _ _ ok q h with h' | ⟨h1, h2⟩
          · rw [trackedPids_append] at h'
            rcases List.mem_append.mp h' with h'' | h''
            · exact Or.inl h''
            · have hq : q = p.pid := by simpa [trackedPids] using h''
              exact Or.inr ⟨by simp [hq], by rw [hq]; exact hok⟩
          · exact Or.inr ⟨by simp [h1], h2⟩
        case isFalse hok =>
          rcases add_new_pids_sub ps acc _ ok q h with h' | ⟨h1, h2⟩
          · exact Or.inl h'
          · exact Or.inr ⟨by simp [h1], h2⟩

/-- The new-process phase emits no `instrument_process` attempt for a
pid that is already a key of the dict. -/
lemma add_new_no_instr :
    ∀ (ps : List ClaudeProcess) (acc : List TrackedProc)
      (evs : List MonitorEvent) (ok : ℕ → Bool) (pid : ℕ),
      pid ∈ trackedPids acc → MonitorEvent.instrument pid ∉ evs →
      MonitorEvent.instrument pid ∉ (add_new acc evs ps ok).2
  | [], acc, evs, ok, pid => by
      intro _ hevs
      simpa [add_new] using hevs
  | p :: ps, acc, evs, ok, pid => by
      intro hacc hevs
      unfold add_new
      split
      case isTrue h => exact add_new_no_instr ps acc evs ok pid hacc hevs
      case isFalse h =>
        have hne : p.pid ≠ pid := fun hc => h (hc ▸ hacc)
        have hevs' : MonitorEvent.instrument pid ∉
            evs ++ [MonitorEvent.instrument p.pid] := by
          intro hc
          rcases List.mem_append.mp hc with hc' | hc'
          · exact hevs hc'
          · have hcc : pid = p.pid := by simpa using hc'
            exact hne hcc.symm
        split
        · refine add_new_no_instr ps _ _ ok pid ?_ hevs'
          rw [trackedPids_append]
          exact List.mem_append_left _ hacc
        · exact add_new_no_instr ps acc _ ok pid hacc hevs'

/-- C7: a pid tracked at poll K but absent from poll K+1's snapshot has
`end_session` invoked on its associated session exactly once (when its
record has a logger instance), with any error from `end_session`
swallowed (the resulting tracked set does not depend on whether the call
raised), its record is removed from the tracked set, and this
finalization is emitted before any `instrument_process` of newly
discovered processes within the same iteration. -/
theorem C7_dead_finalized_once (tracked : List TrackedProc)
    (snapshot : List ClaudeProcess) (instrumentOk endFails : ℕ → Bool)
    (pid : ℕ) (e : TrackedProc)
    (hnd : (trackedPids tracked).Nodup)
    (he : e ∈ tracked) (hpid : e.proc.pid = pid)
    (hdead : pid ∉ snapshot.map (fun p => p.pid)) :
    (e.hasLogger = true →
      ((monitor_step tracked snapshot instrumentOk endFails).2.filter
          (isEndFor pid)).length = 1) ∧
    pid ∉
      trackedPids (monitor_step tracked snapshot instrumentOk endFails).1 ∧
    (∃ evd evn,
      (monitor_step tracked snapshot instrumentOk endFails).2 =
        evd ++ evn ∧
      (∀ x ∈ evd, ∃ q b, x = MonitorEvent.endSession q b) ∧
      (∀ x ∈ evn, ∃ q, x = MonitorEvent.instrument q)) ∧
    (monitor_step tracked snapshot instrumentOk endFails).1 =
      (monitor_step tracked snapshot instrumentOk (fun _ => false)).1 := by
  refine ⟨fun hlog => ?_, ?_, ?_, rfl⟩
  · unfold monitor_step
    have hnil :
        ((add_new (remove_dead tracked (snapshot.map (fun p => p.pid))) []
            snapshot instrumentOk).2.filter (isEndFor pid)) = [] := by
      apply List.filter_eq_nil_iff.mpr
      intro x hx
      rcases add_new_events_mem snapshot _ [] instrumentOk x hx with
        h0 | ⟨q, rfl⟩
      · simp at h0
      · simp [isEndFor]
    rw [List.filter_append, List.length_append,
      dead_events_filter_one tracked _ endFails pid hnd
        ⟨e, he, hpid, hlog⟩ hdead, hnil]
    rfl
  · intro hin
    unfold monitor_step at hin
    rcases add_new_pids_sub snapshot _ [] instrumentOk pid hin with
      h0 | ⟨h1, _⟩
    · exact hdead ((remove_dead_pids tracked _ pid).mp h0).2
    · exact hdead h1
  · unfold monitor_step
    refine ⟨dead_events tracked (snapshot.map (fun p => p.pid)) endFails,
      (add_new (remove_dead tracked (snapshot.map (fun p => p.pid))) []
        snapshot instrumentOk).2, rfl,
      fun x hx => dead_events_all_end tracked _ endFails x hx,
      fun x hx => ?_⟩
    rcases add_new_events_mem snapshot _ [] instrumentOk x hx with
      h0 | hq
    · simp at h0
    · exact hq

/-- Witness for C7: one instrumented tracked process that vanished from
the snapshot. -/
theorem C7_witness :
    ((monitor_step [entryNine] [] (fun _ => true) (fun _ => false)).2.filter
        (isEndFor 9)).length = 1 ∧
    9 ∉ trackedPids
      (monitor_step [entryNine] [] (fun _ => true) (fun _ => false)).1 := by
  have h := C7_dead_finalized_once [entryNine] [] (fun _ => true)
    (fun _ => false) 9 entryNine (by simp [trackedPids]) (by simp) rfl
    (by simp)
  exact ⟨h.1 rfl, h.2.1⟩

/-- C8: when the same pid appears in two consecutive snapshots and was
successfully instrumented (or already tracked) at the first poll, the
second poll emits no `instrument_process` for it — no second Session
recorder is constructed or started — and any pid newly tracked at the
second poll got there only because its instrumentation succeeded. -/
theorem C8_no_duplicate_session (tracked : List TrackedProc)
    (snap1 snap2 : List ClaudeProcess) (ok1 ok2 ef1 ef2 : ℕ → Bool)
    (pid : ℕ)
    (h1 : pid ∈ snap1.map (fun p => p.pid))
    (h2 : pid ∈ snap2.map (fun p => p.pid))
    (hstart : ok1 pid = true ∨ pid ∈ trackedPids tracked) :
    MonitorEvent.instrument pid ∉
      (monitor_step (monitor_step tracked snap1 ok1 ef1).1 snap2 ok2
        ef2).2 ∧
    ∀ q, q ∈ trackedPids
        (monitor_step (monitor_step tracked snap1 ok1 ef1).1 snap2 ok2
          ef2).1 →
      q ∈ trackedPids (monitor_step tracked snap1 ok1 ef1).1 ∨
        ok2 q = true := by
  have hst1 : pid ∈ trackedPids (monitor_step tracked snap1 ok1 ef1).1 := by
    unfold monitor_step
    rcases hstart with hok | htr
    · exact add_new_mem_of_ok snap1 _ [] ok1 pid h1 hok
    · exact add_new_pids_mono snap1 _ [] ok1 pid
        ((remove_dead_pids tracked _ pid).mpr ⟨htr, h1⟩)
  constructor
  · intro hin
    unfold monitor_step at hin
    rcases List.mem_append.mp hin with hd | hn
    · rcases dead_events_all_end _ _ ef2 _ hd with ⟨q, b, hqb⟩
      simp at hqb
    · exact add_new_no_instr snap2 _ [] ok2 pid
        ((remove_dead_pids _ _ pid).mpr ⟨hst1, h2⟩) (by simp) hn
  · intro q hq
    unfold monitor_step at hq
    rcases add_new_pids_sub snap2 _ [] ok2 q hq with h0 | ⟨_, hok⟩
    · exact Or.inl ((remove_dead_pids _ _ q).mp h0).1
    · exact Or.inr hok

/-- Witness for C8: the same process discovered at poll 1 and still
alive at poll 2. -/
theorem C8_witness :
    MonitorEvent.instrument 9 ∉
      (monitor_step
        (monitor_step [] [procNine] (fun _ => true) (fun _ => false)).1
        [procNine] (fun _ => true) (fun _ => false)).2 :=
  (C8_no_duplicate_session [] [procNine] [procNine] (fun _ => true)
    (fun _ => true) (fun _ => false) (fun _ => false) 9
    (by simp [procNine]) (by simp [procNine]) (Or.inl rfl)).1

end ClaudeLangfuse
